import Mathlib

/-!
Verification of the convergence-loop controller of this repository.

Two implementations are embedded:
* `SwarmAgent` — the hand-rolled swarm loop of `swarm_agent.py`
  (`create_shared_context`, the three agents, `should_terminate`, `run_swarm`);
* `LangGraphSwarm` — the two-role solver/critic cycle of
  `03_frameworks/langgraph/06_swarm.py`.

External collaborators (the search call, the LLM chat-completion calls) are
modelled as oracle functions supplied as parameters; a fallible call returns
`Except String …` where `Except.error` stands for a raised exception.
Python floats are modelled as exact rationals (`Rat`); the only float values
occurring in the control flow are small decimal literals, for which rational
arithmetic agrees with the comparisons performed by the code.
The unbounded `while True` loop is modelled with an explicit fuel argument;
`swarm_loop_isSome` proves that `max_iterations + 1` units of fuel always
suffice, so the `none` (fuel-exhausted) outcome is unreachable from the
entry point.
-/

namespace SwarmAgent

/-- The shared mutable context of `create_shared_context` in `swarm_agent.py`.
The `agents_last_round` key of the Python dict is created but never read or
written anywhere in the file, so it is omitted. -/
structure SharedContext where
  task : String
  findings : List String
  open_threads : List String
  investigated : List String
  iteration : Nat
  max_iterations : Nat
  confidence : Rat
deriving Repr, DecidableEq

/-- Function `create_shared_context`: fresh context for a task. -/
def create_shared_context (task : String) : SharedContext :=
  { task := task
    findings := []
    open_threads := [task]
    investigated := []
    iteration := 0
    max_iterations := 10
    confidence := 0 }

/-- The JSON object the researcher prompt asks the LLM for
(`findings`, `new_threads`, `confidence_boost`), after parsing. -/
structure ResearcherReply where
  findings : List String
  new_threads : List String
  confidence_boost : Rat
deriving Repr, DecidableEq

/-- The JSON object the analyst prompt asks the LLM for
(`patterns`, `contradictions`, `gaps`, `confidence_boost`), after parsing.
`contradictions` is requested by the prompt but never read by the code. -/
structure AnalystReply where
  patterns : List String
  gaps : List String
  confidence_boost : Rat
deriving Repr, DecidableEq

/-- The JSON object the critic prompt asks the LLM for
(`challenges`, `needs_verification`, `confidence_adjustment`), after parsing. -/
structure CriticReply where
  challenges : List String
  needs_verification : List String
  confidence_adjustment : Rat
deriving Repr, DecidableEq

/-- The external collaborators of the swarm: the Tavily search call and the
three chat-completion calls.  Each is a pure oracle; `Except.error msg`
models the call raising an exception (or `json.loads` failing).  The LLM
oracles receive the whole shared context, which determines the prompt the
code builds from it; the researcher oracle additionally receives the
`result_text` built from the search outcome, since that text is part of its
prompt. -/
structure Oracles where
  search : String → Except String (List (String × String))
  researcher_llm : SharedContext → String → Except String ResearcherReply
  analyst_llm : SharedContext → Except String AnalystReply
  critic_llm : SharedContext → Except String CriticReply

/-- The `result_text` the researcher builds from the search call: on success,
`"title: content[:200]"` lines joined by newlines (or `"No results found."`);
on an exception, `"Search failed: " ++ message` — the one caught failure in
the file. -/
def search_result_text (out : Except String (List (String × String))) : String :=
  match out with
  | Except.ok rs =>
      let fs := rs.map (fun r => r.1 ++ ": " ++ r.2.take 200)
      if fs.isEmpty then "No results found." else String.intercalate "\n" fs
  | Except.error e => "Search failed: " ++ e

/-- The incremental dedup loop used by all three agents: each candidate
thread is appended only if it is in neither `investigated` nor the current
(growing) `open_threads` list. -/
def add_open_threads (investigated : List String) (opens : List String) :
    List String → List String
  | [] => opens
  | t :: ts =>
      if t ∉ investigated ∧ t ∉ opens then
        add_open_threads investigated (opens ++ [t]) ts
      else
        add_open_threads investigated opens ts

/-- The successful-path state update of `run_researcher_agent`: append tagged
findings, dedup-add new threads, add the confidence boost (no clamp), then
remove the picked thread from `open_threads` (first occurrence, guarded by
membership — i.e. `List.erase`) and append it to `investigated`. -/
def researcher_apply (ctx : SharedContext) (thread : String)
    (reply : ResearcherReply) : SharedContext :=
  let c1 := { ctx with
    findings := ctx.findings ++ reply.findings.map (fun f => "[RESEARCHER] " ++ f) }
  let c2 := { c1 with
    open_threads := add_open_threads c1.investigated c1.open_threads reply.new_threads }
  let c3 := { c2 with confidence := c2.confidence + reply.confidence_boost }
  { c3 with
    open_threads := c3.open_threads.erase thread
    investigated := c3.investigated ++ [thread] }

/-- Function `run_researcher_agent`: no-op when `open_threads` is empty; otherwise
investigate the first open thread.  Only the search call is inside a
`try/except`; an error from the chat-completion call propagates. -/
def run_researcher_agent (o : Oracles) (ctx : SharedContext) :
    Except String (SharedContext × Bool) :=
  match ctx.open_threads with
  | [] => Except.ok (ctx, false)
  | thread :: _ =>
      match o.researcher_llm ctx (search_result_text (o.search thread)) with
      | Except.error e => Except.error e
      | Except.ok reply => Except.ok (researcher_apply ctx thread reply, true)

/-- The successful-path state update of `run_analyst_agent`. -/
def analyst_apply (ctx : SharedContext) (reply : AnalystReply) : SharedContext :=
  let c1 := { ctx with
    findings := ctx.findings ++ reply.patterns.map (fun p => "[ANALYST] Pattern: " ++ p) }
  let c2 := { c1 with
    open_threads := add_open_threads c1.investigated c1.open_threads reply.gaps }
  { c2 with confidence := c2.confidence + reply.confidence_boost }

/-- Function `run_analyst_agent`: no-op unless at least 2 findings exist; adds
patterns as findings and gaps as deduplicated threads; no confidence clamp. -/
def run_analyst_agent (o : Oracles) (ctx : SharedContext) :
    Except String (SharedContext × Bool) :=
  if ctx.findings.length < 2 then Except.ok (ctx, false)
  else
    match o.analyst_llm ctx with
    | Except.error e => Except.error e
    | Except.ok reply => Except.ok (analyst_apply ctx reply, true)

/-- The successful-path state update of `run_critic_agent`: the only update
followed by the `max(0, confidence)` clamp. -/
def critic_apply (ctx : SharedContext) (reply : CriticReply) : SharedContext :=
  let c1 := { ctx with
    findings := ctx.findings ++ reply.challenges.map (fun c => "[CRITIC] Challenge: " ++ c) }
  let c2 := { c1 with
    open_threads := add_open_threads c1.investigated c1.open_threads
      (reply.needs_verification.map (fun cl => "Verify: " ++ cl)) }
  { c2 with confidence := max 0 (c2.confidence + reply.confidence_adjustment) }

/-- Function `run_critic_agent`: no-op unless at least 3 findings exist. -/
def run_critic_agent (o : Oracles) (ctx : SharedContext) :
    Except String (SharedContext × Bool) :=
  if ctx.findings.length < 3 then Except.ok (ctx, false)
  else
    match o.critic_llm ctx with
    | Except.error e => Except.error e
    | Except.ok reply => Except.ok (critic_apply ctx reply, true)

/-- Two-decimal rendering of the confidence, modelling Python's
`f"{conf:.2f}"` for the non-negative values at which the code formats it. -/
def fmt2 (c : Rat) : String :=
  let n : Int := Int.floor (c * 100 + 1 / 2)
  let ip := n / 100
  let fp := (n % 100).toNat
  toString ip ++ "." ++ (if fp < 10 then "0" ++ toString fp else toString fp)

/-- Function `should_terminate`: the three stop conditions checked in priority order,
returning the flag together with the reason string. -/
def should_terminate (ctx : SharedContext) : Bool × String :=
  if ctx.max_iterations ≤ ctx.iteration then
    (true, "Max iterations reached")
  else if (0.85 : Rat) ≤ ctx.confidence then
    (true, "Confidence threshold reached (" ++ fmt2 ctx.confidence ++ ")")
  else if ctx.open_threads = [] ∧ 3 < ctx.findings.length then
    (true, "All threads investigated")
  else
    (false, "")

/-- One pass over the agent list `[Researcher, Analyst, Critic]`, counting
contributions; an exception from any agent aborts the round (and, in the
source, the whole loop). -/
def run_round (o : Oracles) (ctx : SharedContext) :
    Except String (SharedContext × Nat) :=
  match run_researcher_agent o ctx with
  | Except.error e => Except.error e
  | Except.ok (c1, b1) =>
      match run_analyst_agent o c1 with
      | Except.error e => Except.error e
      | Except.ok (c2, b2) =>
          match run_critic_agent o c2 with
          | Except.error e => Except.error e
          | Except.ok (c3, b3) =>
              Except.ok (c3, (if b1 then 1 else 0) + (if b2 then 1 else 0)
                + (if b3 then 1 else 0))

/-- The `while True` loop of `run_swarm`, with fuel.  Each pass increments
`iteration` FIRST, then evaluates `should_terminate`, and only then runs the
agents; if no agent contributed, the confidence is nudged by `0.1`.
`none` is the fuel-exhausted outcome, proved unreachable below for
sufficient fuel. -/
def swarm_loop (o : Oracles) : Nat → SharedContext →
    Option (Except String (SharedContext × String))
  | 0, _ => none
  | fuel + 1, ctx =>
      let c := { ctx with iteration := ctx.iteration + 1 }
      let st := should_terminate c
      if st.1 then some (Except.ok (c, st.2))
      else
        match run_round o c with
        | Except.error e => some (Except.error e)
        | Except.ok (c', n) =>
            swarm_loop o fuel
              (if n = 0 then { c' with confidence := c'.confidence + 1 / 10 } else c')

/-- The dictionary `run_swarm` returns: built from the final context and the
synthesizer's answer only — the termination reason is not among its fields. -/
structure SwarmResult where
  task : String
  iterations : Nat
  total_findings : Nat
  threads_investigated : Nat
  final_confidence : Rat
  findings : List String
  answer : String
deriving Repr, DecidableEq

/-- Build the returned dictionary from a final context and the synthesizer's
answer, exactly the fields of the `return` statement of `run_swarm`. -/
def mk_result (ctx : SharedContext) (answer : String) : SwarmResult :=
  { task := ctx.task
    iterations := ctx.iteration
    total_findings := ctx.findings.length
    threads_investigated := ctx.investigated.length
    final_confidence := ctx.confidence
    findings := ctx.findings
    answer := answer }

/-- Function `run_swarm`: create the context, run the loop, synthesize the answer
(the synthesizer's LLM call is the oracle `synth`) and build the result
dictionary.  The fuel `max_iterations + 1` is a modelling device proved
sufficient by `swarm_loop_isSome`; the `"fuel exhausted"` branch is
unreachable. -/
def run_swarm (o : Oracles) (synth : SharedContext → String) (task : String) :
    Except String SwarmResult :=
  match swarm_loop o ((create_shared_context task).max_iterations + 1)
      (create_shared_context task) with
  | some (Except.ok (c, _reason)) => Except.ok (mk_result c (synth c))
  | some (Except.error e) => Except.error e
  | none => Except.error "fuel exhausted"

/-! Projections of the agent state updates on the fields they never touch,
and on the confidence field. -/

@[simp] theorem researcher_apply_iteration (ctx : SharedContext) (t : String)
    (r : ResearcherReply) : (researcher_apply ctx t r).iteration = ctx.iteration := rfl

@[simp] theorem researcher_apply_max (ctx : SharedContext) (t : String)
    (r : ResearcherReply) :
    (researcher_apply ctx t r).max_iterations = ctx.max_iterations := rfl

@[simp] theorem researcher_apply_confidence (ctx : SharedContext) (t : String)
    (r : ResearcherReply) :
    (researcher_apply ctx t r).confidence = ctx.confidence + r.confidence_boost := rfl

@[simp] theorem researcher_apply_investigated (ctx : SharedContext) (t : String)
    (r : ResearcherReply) :
    (researcher_apply ctx t r).investigated = ctx.investigated ++ [t] := rfl

@[simp] theorem researcher_apply_open (ctx : SharedContext) (t : String)
    (r : ResearcherReply) :
    (researcher_apply ctx t r).open_threads =
      (add_open_threads ctx.investigated ctx.open_threads r.new_threads).erase t := rfl

@[simp] theorem analyst_apply_iteration (ctx : SharedContext) (r : AnalystReply) :
    (analyst_apply ctx r).iteration = ctx.iteration := rfl

@[simp] theorem analyst_apply_max (ctx : SharedContext) (r : AnalystReply) :
    (analyst_apply ctx r).max_iterations = ctx.max_iterations := rfl

@[simp] theorem analyst_apply_confidence (ctx : SharedContext) (r : AnalystReply) :
    (analyst_apply ctx r).confidence = ctx.confidence + r.confidence_boost := rfl

@[simp] theorem analyst_apply_investigated (ctx : SharedContext) (r : AnalystReply) :
    (analyst_apply ctx r).investigated = ctx.investigated := rfl

@[simp] theorem analyst_apply_open (ctx : SharedContext) (r : AnalystReply) :
    (analyst_apply ctx r).open_threads =
      add_open_threads ctx.investigated ctx.open_threads r.gaps := rfl

@[simp] theorem critic_apply_iteration (ctx : SharedContext) (r : CriticReply) :
    (critic_apply ctx r).iteration = ctx.iteration := rfl

@[simp] theorem critic_apply_max (ctx : SharedContext) (r : CriticReply) :
    (critic_apply ctx r).max_iterations = ctx.max_iterations := rfl

@[simp] theorem critic_apply_confidence (ctx : SharedContext) (r : CriticReply) :
    (critic_apply ctx r).confidence =
      max 0 (ctx.confidence + r.confidence_adjustment) := rfl

@[simp] theorem critic_apply_investigated (ctx : SharedContext) (r : CriticReply) :
    (critic_apply ctx r).investigated = ctx.investigated := rfl

@[simp] theorem critic_apply_open (ctx : SharedContext) (r : CriticReply) :
    (critic_apply ctx r).open_threads =
      add_open_threads ctx.investigated ctx.open_threads
        (r.needs_verification.map (fun cl => "Verify: " ++ cl)) := rfl

/-! Frame lemmas: a successful agent run never changes `iteration` or
`max_iterations`. -/

theorem run_researcher_agent_frame {o : Oracles} {ctx c : SharedContext} {b : Bool}
    (h : run_researcher_agent o ctx = Except.ok (c, b)) :
    c.iteration = ctx.iteration ∧ c.max_iterations = ctx.max_iterations := by
  unfold run_researcher_agent at h
  cases hop : ctx.open_threads with
  | nil =>
      simp only [hop, Except.ok.injEq, Prod.mk.injEq] at h
      rw [← h.1]
      exact ⟨rfl, rfl⟩
  | cons t ts =>
      simp only [hop] at h
      cases hr : o.researcher_llm ctx (search_result_text (o.search t)) with
      | error e => simp [hr] at h
      | ok reply =>
          simp only [hr, Except.ok.injEq, Prod.mk.injEq] at h
          rw [← h.1]
          exact ⟨rfl, rfl⟩

theorem run_analyst_agent_frame {o : Oracles} {ctx c : SharedContext} {b : Bool}
    (h : run_analyst_agent o ctx = Except.ok (c, b)) :
    c.iteration = ctx.iteration ∧ c.max_iterations = ctx.max_iterations := by
  unfold run_analyst_agent at h
  split at h
  · simp only [Except.ok.injEq, Prod.mk.injEq] at h
    rw [← h.1]
    exact ⟨rfl, rfl⟩
  · cases hr : o.analyst_llm ctx with
    | error e => simp [hr] at h
    | ok reply =>
        simp only [hr, Except.ok.injEq, Prod.mk.injEq] at h
        rw [← h.1]
        exact ⟨rfl, rfl⟩

theorem run_critic_agent_frame {o : Oracles} {ctx c : SharedContext} {b : Bool}
    (h : run_critic_agent o ctx = Except.ok (c, b)) :
    c.iteration = ctx.iteration ∧ c.max_iterations = ctx.max_iterations := by
  unfold run_critic_agent at h
  split at h
  · simp only [Except.ok.injEq, Prod.mk.injEq] at h
    rw [← h.1]
    exact ⟨rfl, rfl⟩
  · cases hr : o.critic_llm ctx with
    | error e => simp [hr] at h
    | ok reply =>
        simp only [hr, Except.ok.injEq, Prod.mk.injEq] at h
        rw [← h.1]
        exact ⟨rfl, rfl⟩

theorem run_round_frame {o : Oracles} {ctx c : SharedContext} {n : Nat}
    (h : run_round o ctx = Except.ok (c, n)) :
    c.iteration = ctx.iteration ∧ c.max_iterations = ctx.max_iterations := by
  unfold run_round at h
  cases h1 : run_researcher_agent o ctx with
  | error e => simp [h1] at h
  | ok p1 =>
      simp only [h1] at h
      cases h2 : run_analyst_agent o p1.1 with
      | error e => simp [h2] at h
      | ok p2 =>
          simp only [h2] at h
          cases h3 : run_critic_agent o p2.1 with
          | error e => simp [h3] at h
          | ok p3 =>
              simp only [h3, Except.ok.injEq, Prod.mk.injEq] at h
              have f1 := run_researcher_agent_frame (c := p1.1) (b := p1.2)
                (by rw [h1])
              have f2 := run_analyst_agent_frame (c := p2.1) (b := p2.2)
                (by rw [h2])
              have f3 := run_critic_agent_frame (c := p3.1) (b := p3.2)
                (by rw [h3])
              rw [← h.1]
              exact ⟨by rw [f3.1, f2.1, f1.1], by rw [f3.2, f2.2, f1.2]⟩

/-! Characterizations of `should_terminate`. -/

theorem should_terminate_max {ctx : SharedContext}
    (h : ctx.max_iterations ≤ ctx.iteration) :
    should_terminate ctx = (true, "Max iterations reached") := by
  unfold should_terminate
  rw [if_pos h]

theorem lt_max_of_not_terminate {ctx : SharedContext}
    (h : (should_terminate ctx).1 = false) :
    ctx.iteration < ctx.max_iterations := by
  unfold should_terminate at h
  split at h
  · simp at h
  · next hc =>
      exact Nat.lt_of_not_le hc

/-! The loop always reaches an outcome within `max_iterations - iteration + 1`
passes: the fuel-exhausted value `none` is unreachable with enough fuel, and
a normal return never reports more than `max_iterations` iterations. -/

theorem swarm_loop_isSome (o : Oracles) :
    ∀ (fuel : Nat) (ctx : SharedContext),
      ctx.max_iterations ≤ ctx.iteration + fuel →
      (swarm_loop o (fuel + 1) ctx).isSome := by
  intro fuel
  induction fuel with
  | zero =>
      intro ctx h
      unfold swarm_loop
      have hstop : should_terminate { ctx with iteration := ctx.iteration + 1 } =
          (true, "Max iterations reached") :=
        should_terminate_max (by simpa using Nat.le_succ_of_le h)
      simp [hstop]
  | succ k ih =>
      intro ctx h
      unfold swarm_loop
      cases hst : (should_terminate { ctx with iteration := ctx.iteration + 1 }).1 with
      | true => simp [hst]
      | false =>
          simp only [hst, if_false, Bool.false_eq_true]
          cases hr : run_round o { ctx with iteration := ctx.iteration + 1 } with
          | error e => simp
          | ok p =>
              simp only []
              have frame := run_round_frame (c := p.1) (n := p.2) (by rw [hr])
              set next := if p.2 = 0 then
                  { p.1 with confidence := p.1.confidence + 1 / 10 } else p.1 with hnext
              have hiter : next.iteration = ctx.iteration + 1 := by
                rw [hnext]
                split <;> simpa using frame.1
              have hmax : next.max_iterations = ctx.max_iterations := by
                rw [hnext]
                split <;> simpa using frame.2
              exact ih next (by rw [hiter, hmax]; omega)

theorem swarm_loop_iter_le (o : Oracles) :
    ∀ (fuel : Nat) (ctx c : SharedContext) (reason : String),
      ctx.iteration < ctx.max_iterations →
      swarm_loop o fuel ctx = some (Except.ok (c, reason)) →
      c.iteration ≤ ctx.max_iterations := by
  intro fuel
  induction fuel with
  | zero => intro ctx c reason _ h; simp [swarm_loop] at h
  | succ k ih =>
      intro ctx c reason hlt h
      unfold swarm_loop at h
      cases hst : (should_terminate { ctx with iteration := ctx.iteration + 1 }).1 with
      | true =>
          simp only [hst, if_true] at h
          simp only [Option.some.injEq, Except.ok.injEq, Prod.mk.injEq] at h
          rw [← h.1]
          simpa using hlt
      | false =>
          simp only [hst, if_false, Bool.false_eq_true] at h
          cases hr : run_round o { ctx with iteration := ctx.iteration + 1 } with
          | error e => simp [hr] at h
          | ok p =>
              simp only [hr] at h
              have frame := run_round_frame (c := p.1) (n := p.2) (by rw [hr])
              have hlt2 : ctx.iteration + 1 < ctx.max_iterations :=
                lt_max_of_not_terminate hst
              set next := if p.2 = 0 then
                  { p.1 with confidence := p.1.confidence + 1 / 10 } else p.1 with hnext
              have hiter : next.iteration = ctx.iteration + 1 := by
                rw [hnext]
                split <;> simpa using frame.1
              have hmax : next.max_iterations = ctx.max_iterations := by
                rw [hnext]
                split <;> simpa using frame.2
              have := ih next c reason (by rw [hiter, hmax]; omega) h
              rw [hmax] at this
              exact this

/-! The open/investigated invariant: `open_threads` holds no duplicates and
is disjoint from `investigated`. -/

/-- Invariant: `open_threads` has no duplicates, and no investigated item is
still open. -/
def CtxInv (ctx : SharedContext) : Prop :=
  ctx.open_threads.Nodup ∧ ∀ x ∈ ctx.investigated, x ∉ ctx.open_threads

instance (ctx : SharedContext) : Decidable (CtxInv ctx) := by
  unfold CtxInv
  infer_instance

/-- Everything `add_open_threads` returns was already open or is not an
investigated item (candidates from `investigated` are filtered out). -/
theorem add_open_threads_mem {inv : List String} :
    ∀ {ts opens : List String} {x : String},
      x ∈ add_open_threads inv opens ts → x ∈ opens ∨ x ∉ inv := by
  intro ts
  induction ts with
  | nil => intro opens x h; exact Or.inl h
  | cons t ts ih =>
      intro opens x h
      unfold add_open_threads at h
      split at h
      · next hc =>
          rcases ih h with hmem | hninv
          · rcases List.mem_append.mp hmem with hmem | hmem
            · exact Or.inl hmem
            · have : x = t := by simpa using hmem
              exact Or.inr (this ▸ hc.1)
          · exact Or.inr hninv
      · exact ih h

/-- The function `add_open_threads` preserves the no-duplicates property (each candidate
is checked against the growing open list). -/
theorem add_open_threads_nodup {inv : List String} :
    ∀ {ts opens : List String}, opens.Nodup →
      (add_open_threads inv opens ts).Nodup := by
  intro ts
  induction ts with
  | nil => intro opens h; exact h
  | cons t ts ih =>
      intro opens h
      unfold add_open_threads
      split
      · next hc =>
          refine ih ?_
          rw [List.nodup_append]
          exact ⟨h, List.nodup_singleton t, by
            intro x hx hxt
            have : x = t := by simpa using hxt
            exact hc.2 (this ▸ hx)⟩
      · exact ih h

/-- The two `add_open_threads` facts packaged against the invariant. -/
theorem add_open_threads_inv {inv opens : List String} (ts : List String)
    (hnd : opens.Nodup) (hdis : ∀ x ∈ inv, x ∉ opens) :
    (add_open_threads inv opens ts).Nodup ∧
      ∀ x ∈ inv, x ∉ add_open_threads inv opens ts := by
  refine ⟨add_open_threads_nodup hnd, ?_⟩
  intro x hx hmem
  rcases add_open_threads_mem hmem with h | h
  · exact hdis x hx h
  · exact h hx

theorem researcher_apply_inv {ctx : SharedContext} {t : String}
    {r : ResearcherReply} (hinv : CtxInv ctx) : CtxInv (researcher_apply ctx t r) := by
  obtain ⟨hnd, hdis⟩ := hinv
  obtain ⟨hnd', hdis'⟩ := add_open_threads_inv r.new_threads hnd hdis
  constructor
  · rw [researcher_apply_open]
    exact List.Nodup.erase t hnd'
  · rw [researcher_apply_open, researcher_apply_investigated]
    intro x hx hmem
    rcases List.mem_append.mp hx with hx | hx
    · exact hdis' x hx (List.erase_subset t _ hmem)
    · have hxt : x = t := by simpa using hx
      subst hxt
      have := (List.Nodup.mem_erase_iff hnd').mp hmem
      exact this.1 rfl

theorem analyst_apply_inv {ctx : SharedContext} {r : AnalystReply}
    (hinv : CtxInv ctx) : CtxInv (analyst_apply ctx r) := by
  obtain ⟨hnd, hdis⟩ := hinv
  obtain ⟨hnd', hdis'⟩ := add_open_threads_inv r.gaps hnd hdis
  exact ⟨by rw [analyst_apply_open]; exact hnd', by
    rw [analyst_apply_open, analyst_apply_investigated]; exact hdis'⟩

theorem critic_apply_inv {ctx : SharedContext} {r : CriticReply}
    (hinv : CtxInv ctx) : CtxInv (critic_apply ctx r) := by
  obtain ⟨hnd, hdis⟩ := hinv
  obtain ⟨hnd', hdis'⟩ := add_open_threads_inv
    (r.needs_verification.map (fun cl => "Verify: " ++ cl)) hnd hdis
  exact ⟨by rw [critic_apply_open]; exact hnd', by
    rw [critic_apply_open, critic_apply_investigated]; exact hdis'⟩

theorem run_researcher_agent_inv {o : Oracles} {ctx c : SharedContext} {b : Bool}
    (hinv : CtxInv ctx) (h : run_researcher_agent o ctx = Except.ok (c, b)) :
    CtxInv c := by
  unfold run_researcher_agent at h
  cases hop : ctx.open_threads with
  | nil =>
      simp only [hop, Except.ok.injEq, Prod.mk.injEq] at h
      rw [← h.1]
      exact hinv
  | cons t ts =>
      simp only [hop] at h
      cases hr : o.researcher_llm ctx (search_result_text (o.search t)) with
      | error e => simp [hr] at h
      | ok reply =>
          simp only [hr, Except.ok.injEq, Prod.mk.injEq] at h
          rw [← h.1]
          exact researcher_apply_inv hinv

theorem run_analyst_agent_inv {o : Oracles} {ctx c : SharedContext} {b : Bool}
    (hinv : CtxInv ctx) (h : run_analyst_agent o ctx = Except.ok (c, b)) :
    CtxInv c := by
  unfold run_analyst_agent at h
  split at h
  · simp only [Except.ok.injEq, Prod.mk.injEq] at h
    rw [← h.1]
    exact hinv
  · cases hr : o.analyst_llm ctx with
    | error e => simp [hr] at h
    | ok reply =>
        simp only [hr, Except.ok.injEq, Prod.mk.injEq] at h
        rw [← h.1]
        exact analyst_apply_inv hinv

theorem run_critic_agent_inv {o : Oracles} {ctx c : SharedContext} {b : Bool}
    (hinv : CtxInv ctx) (h : run_critic_agent o ctx = Except.ok (c, b)) :
    CtxInv c := by
  unfold run_critic_agent at h
  split at h
  · simp only [Except.ok.injEq, Prod.mk.injEq] at h
    rw [← h.1]
    exact hinv
  · cases hr : o.critic_llm ctx with
    | error e => simp [hr] at h
    | ok reply =>
        simp only [hr, Except.ok.injEq, Prod.mk.injEq] at h
        rw [← h.1]
        exact critic_apply_inv hinv

theorem run_round_inv {o : Oracles} {ctx c : SharedContext} {n : Nat}
    (hinv : CtxInv ctx) (h : run_round o ctx = Except.ok (c, n)) : CtxInv c := by
  unfold run_round at h
  cases h1 : run_researcher_agent o ctx with
  | error e => simp [h1] at h
  | ok p1 =>
      simp only [h1] at h
      cases h2 : run_analyst_agent o p1.1 with
      | error e => simp [h2] at h
      | ok p2 =>
          simp only [h2] at h
          cases h3 : run_critic_agent o p2.1 with
          | error e => simp [h3] at h
          | ok p3 =>
              simp only [h3, Except.ok.injEq, Prod.mk.injEq] at h
              have i1 := run_researcher_agent_inv (c := p1.1) (b := p1.2) hinv
                (by rw [h1])
              have i2 := run_analyst_agent_inv (c := p2.1) (b := p2.2) i1
                (by rw [h2])
              have i3 := run_critic_agent_inv (c := p3.1) (b := p3.2) i2
                (by rw [h3])
              rw [← h.1]
              exact i3

theorem swarm_loop_inv (o : Oracles) :
    ∀ (fuel : Nat) (ctx c : SharedContext) (reason : String),
      CtxInv ctx →
      swarm_loop o fuel ctx = some (Except.ok (c, reason)) →
      CtxInv c := by
  intro fuel
  induction fuel with
  | zero => intro ctx c reason _ h; simp [swarm_loop] at h
  | succ k ih =>
      intro ctx c reason hinv h
      unfold swarm_loop at h
      cases hst : (should_terminate { ctx with iteration := ctx.iteration + 1 }).1 with
      | true =>
          simp only [hst, if_true] at h
          simp only [Option.some.injEq, Except.ok.injEq, Prod.mk.injEq] at h
          rw [← h.1]
          exact hinv
      | false =>
          simp only [hst, if_false, Bool.false_eq_true] at h
          cases hr : run_round o { ctx with iteration := ctx.iteration + 1 } with
          | error e => simp [hr] at h
          | ok p =>
              simp only [hr] at h
              have hinv1 : CtxInv { ctx with iteration := ctx.iteration + 1 } := hinv
              have hinv2 := run_round_inv (c := p.1) (n := p.2) hinv1 (by rw [hr])
              refine ih _ c reason ?_ h
              split
              · exact hinv2
              · exact hinv2

/-- The freshly created context satisfies the invariant. -/
theorem create_shared_context_inv (task : String) :
    CtxInv (create_shared_context task) := by
  constructor
  · exact List.nodup_singleton task
  · intro x hx
    simp [create_shared_context] at hx

/-! Confidence non-negativity: the critic's update is clamped; the other two
agents preserve non-negativity only when the boosts their oracles report are
themselves non-negative. -/

/-- The researcher oracle only ever reports non-negative confidence boosts. -/
def ResearcherNonneg (o : Oracles) : Prop :=
  ∀ ctx s reply, o.researcher_llm ctx s = Except.ok reply →
    0 ≤ reply.confidence_boost

/-- The analyst oracle only ever reports non-negative confidence boosts. -/
def AnalystNonneg (o : Oracles) : Prop :=
  ∀ ctx reply, o.analyst_llm ctx = Except.ok reply → 0 ≤ reply.confidence_boost

theorem run_researcher_agent_conf {o : Oracles} {ctx c : SharedContext} {b : Bool}
    (ho : ResearcherNonneg o) (h0 : 0 ≤ ctx.confidence)
    (h : run_researcher_agent o ctx = Except.ok (c, b)) : 0 ≤ c.confidence := by
  unfold run_researcher_agent at h
  cases hop : ctx.open_threads with
  | nil =>
      simp only [hop, Except.ok.injEq, Prod.mk.injEq] at h
      rw [← h.1]
      exact h0
  | cons t ts =>
      simp only [hop] at h
      cases hr : o.researcher_llm ctx (search_result_text (o.search t)) with
      | error e => simp [hr] at h
      | ok reply =>
          simp only [hr, Except.ok.injEq, Prod.mk.injEq] at h
          rw [← h.1, researcher_apply_confidence]
          exact add_nonneg h0 (ho ctx _ reply hr)

theorem run_analyst_agent_conf {o : Oracles} {ctx c : SharedContext} {b : Bool}
    (ho : AnalystNonneg o) (h0 : 0 ≤ ctx.confidence)
    (h : run_analyst_agent o ctx = Except.ok (c, b)) : 0 ≤ c.confidence := by
  unfold run_analyst_agent at h
  split at h
  · simp only [Except.ok.injEq, Prod.mk.injEq] at h
    rw [← h.1]
    exact h0
  · cases hr : o.analyst_llm ctx with
    | error e => simp [hr] at h
    | ok reply =>
        simp only [hr, Except.ok.injEq, Prod.mk.injEq] at h
        rw [← h.1, analyst_apply_confidence]
        exact add_nonneg h0 (ho ctx reply hr)

theorem run_critic_agent_conf {o : Oracles} {ctx c : SharedContext} {b : Bool}
    (h0 : 0 ≤ ctx.confidence)
    (h : run_critic_agent o ctx = Except.ok (c, b)) : 0 ≤ c.confidence := by
  unfold run_critic_agent at h
  split at h
  · simp only [Except.ok.injEq, Prod.mk.injEq] at h
    rw [← h.1]
    exact h0
  · cases hr : o.critic_llm ctx with
    | error e => simp [hr] at h
    | ok reply =>
        simp only [hr, Except.ok.injEq, Prod.mk.injEq] at h
        rw [← h.1, critic_apply_confidence]
        exact le_max_left 0 _

theorem run_round_conf {o : Oracles} {ctx c : SharedContext} {n : Nat}
    (hro : ResearcherNonneg o) (hao : AnalystNonneg o) (h0 : 0 ≤ ctx.confidence)
    (h : run_round o ctx = Except.ok (c, n)) : 0 ≤ c.confidence := by
  unfold run_round at h
  cases h1 : run_researcher_agent o ctx with
  | error e => simp [h1] at h
  | ok p1 =>
      simp only [h1] at h
      cases h2 : run_analyst_agent o p1.1 with
      | error e => simp [h2] at h
      | ok p2 =>
          simp only [h2] at h
          cases h3 : run_critic_agent o p2.1 with
          | error e => simp [h3] at h
          | ok p3 =>
              simp only [h3, Except.ok.injEq, Prod.mk.injEq] at h
              have c1 := run_researcher_agent_conf (c := p1.1) (b := p1.2) hro h0
                (by rw [h1])
              have c2 := run_analyst_agent_conf (c := p2.1) (b := p2.2) hao c1
                (by rw [h2])
              have c3 := run_critic_agent_conf (c := p3.1) (b := p3.2) c2
                (by rw [h3])
              rw [← h.1]
              exact c3

theorem swarm_loop_conf (o : Oracles) (hro : ResearcherNonneg o)
    (hao : AnalystNonneg o) :
    ∀ (fuel : Nat) (ctx c : SharedContext) (reason : String),
      0 ≤ ctx.confidence →
      swarm_loop o fuel ctx = some (Except.ok (c, reason)) →
      0 ≤ c.confidence := by
  intro fuel
  induction fuel with
  | zero => intro ctx c reason _ h; simp [swarm_loop] at h
  | succ k ih =>
      intro ctx c reason h0 h
      unfold swarm_loop at h
      cases hst : (should_terminate { ctx with iteration := ctx.iteration + 1 }).1 with
      | true =>
          simp only [hst, if_true] at h
          simp only [Option.some.injEq, Except.ok.injEq, Prod.mk.injEq] at h
          rw [← h.1]
          exact h0
      | false =>
          simp only [hst, if_false, Bool.false_eq_true] at h
          cases hr : run_round o { ctx with iteration := ctx.iteration + 1 } with
          | error e => simp [hr] at h
          | ok p =>
              simp only [hr] at h
              have h0' : (0 : Rat) ≤
                  ({ ctx with iteration := ctx.iteration + 1 } : SharedContext).confidence := h0
              have h1 : (0 : Rat) ≤ p.1.confidence :=
                run_round_conf (c := p.1) (n := p.2) hro hao h0' (by rw [hr])
              refine ih _ c reason ?_ h
              split
              · simp only []
                positivity
              · exact h1

end SwarmAgent

namespace LangGraphSwarm

/-- The `SwarmState` TypedDict of `06_swarm.py`. -/
structure SwarmState where
  problem : String
  solution : String
  feedback : String
  iteration : Nat
  is_complete : Bool
  history : List String
deriving Repr, DecidableEq

/-- Constant `MAX_ITERATIONS = 3` — the hard bound on solver/critic rounds. -/
def MAX_ITERATIONS : Nat := 3

/-- Function `solver_agent`: proposes or improves the solution and increments
`iteration`.  The LLM call is the oracle `llm`; it sees the whole state,
which determines the prompt the code builds (initial prompt when
`iteration == 0`, revision prompt referencing `solution` and `feedback`
otherwise). -/
def solver_agent (llm : SwarmState → String) (s : SwarmState) : SwarmState :=
  let new_solution := llm s
  { s with
    solution := new_solution
    iteration := s.iteration + 1
    history := s.history ++
      ["ITERATION " ++ toString (s.iteration + 1) ++ " SOLUTION:\n" ++ new_solution] }

/-- The verdict test `feedback.strip().upper().startswith("APPROVED")`,
stated over the character list of the string (strip whitespace from both
ends, uppercase, check the prefix).  The corresponding core `String`
functions (`trim`, `toUpper`, `startsWith`) compute the same thing but are
defined by well-founded recursion on byte positions, which blocks
definitional evaluation, so the Python semantics is modelled directly on
`String.data`. -/
def approved_verdict (feedback : String) : Bool :=
  List.isPrefixOf "APPROVED".data
    (((feedback.data.dropWhile Char.isWhitespace).reverse.dropWhile
        Char.isWhitespace).reverse.map Char.toUpper)

/-- Function `critic_agent`: reviews the solution; `is_complete` is set exactly when
the feedback, stripped and upper-cased, starts with `"APPROVED"`. -/
def critic_agent (llm : SwarmState → String) (s : SwarmState) : SwarmState :=
  let feedback := llm s
  let is_complete := approved_verdict feedback
  { s with
    feedback := feedback
    is_complete := is_complete
    history := s.history ++
      ["ITERATION " ++ toString s.iteration ++ " FEEDBACK:\n" ++ feedback] }

/-- Function `should_continue`: route back to the solver unless the critic approved
or `MAX_ITERATIONS` is reached. -/
def should_continue (s : SwarmState) : String :=
  if s.is_complete then "end"
  else if MAX_ITERATIONS ≤ s.iteration then "end"
  else "solver"

/-- The compiled graph `START → solver → critic → (should_continue)`, with
fuel; `none` is the fuel-exhausted outcome, proved unreachable below for
sufficient fuel. -/
def run_graph (sLLM cLLM : SwarmState → String) : Nat → SwarmState →
    Option SwarmState
  | 0, _ => none
  | fuel + 1, s =>
      if should_continue (critic_agent cLLM (solver_agent sLLM s)) = "solver" then
        run_graph sLLM cLLM fuel (critic_agent cLLM (solver_agent sLLM s))
      else some (critic_agent cLLM (solver_agent sLLM s))

/-- The call `app.invoke` with the initial state used in `main`: iteration 0, not
complete, empty collections. -/
def invoke (sLLM cLLM : SwarmState → String) (problem : String) :
    Option SwarmState :=
  run_graph sLLM cLLM (MAX_ITERATIONS + 1)
    { problem := problem, solution := "", feedback := "", iteration := 0,
      is_complete := false, history := [] }

/-- One solver/critic pass increments `iteration` by exactly 1 (the solver
increments it; the critic leaves it unchanged). -/
theorem critic_solver_iteration (sLLM cLLM : SwarmState → String) (s : SwarmState) :
    (critic_agent cLLM (solver_agent sLLM s)).iteration = s.iteration + 1 := rfl

/-- The router sends control to `"end"` exactly when the critic approved or
the iteration bound is reached. -/
theorem should_continue_end_iff (s : SwarmState) :
    should_continue s = "end" ↔
      (s.is_complete = true ∨ MAX_ITERATIONS ≤ s.iteration) := by
  unfold should_continue
  split
  · next hc => simp [hc]
  · next hc =>
      split
      · next hm => simp [hm]
      · next hm =>
          constructor
          · intro h
            exact absurd h (by decide)
          · intro h
            rcases h with h | h
            · exact absurd h hc
            · exact absurd h hm

theorem run_graph_zero (sLLM cLLM : SwarmState → String) (s : SwarmState) :
    run_graph sLLM cLLM 0 s = none := rfl

theorem run_graph_succ (sLLM cLLM : SwarmState → String) (fuel : Nat)
    (s : SwarmState) :
    run_graph sLLM cLLM (fuel + 1) s =
      if should_continue (critic_agent cLLM (solver_agent sLLM s)) = "solver" then
        run_graph sLLM cLLM fuel (critic_agent cLLM (solver_agent sLLM s))
      else some (critic_agent cLLM (solver_agent sLLM s)) := rfl

theorem stop_of_should_continue_ne {s : SwarmState}
    (h : should_continue s ≠ "solver") :
    s.is_complete = true ∨ MAX_ITERATIONS ≤ s.iteration := by
  unfold should_continue at h
  split at h
  · next hc => exact Or.inl hc
  · split at h
    · next hm => exact Or.inr hm
    · exact absurd rfl h

theorem continue_lt {s : SwarmState} (h : should_continue s = "solver") :
    s.is_complete = false ∧ s.iteration < MAX_ITERATIONS := by
  unfold should_continue at h
  split at h
  · next hc => exact absurd h (by decide)
  · next hc =>
      split at h
      · next hm => exact absurd h (by decide)
      · next hm => exact ⟨by simpa using hc, Nat.lt_of_not_le hm⟩

/-- Whenever the graph halts normally, the final state satisfies the claimed
disjunction: the critic approved, or the iteration bound was reached. -/
theorem run_graph_stop (sLLM cLLM : SwarmState → String) :
    ∀ (fuel : Nat) (s s' : SwarmState),
      run_graph sLLM cLLM fuel s = some s' →
      s'.is_complete = true ∨ MAX_ITERATIONS ≤ s'.iteration := by
  intro fuel
  induction fuel with
  | zero => intro s s' h; rw [run_graph_zero] at h; cases h
  | succ k ih =>
      intro s s' h
      rw [run_graph_succ] at h
      by_cases hcond :
          should_continue (critic_agent cLLM (solver_agent sLLM s)) = "solver"
      · rw [if_pos hcond] at h
        exact ih _ s' h
      · rw [if_neg hcond] at h
        simp only [Option.some.injEq] at h
        subst h
        exact stop_of_should_continue_ne hcond

/-- Exactly `MAX_ITERATIONS - iteration + 1` passes of the graph always reach a
normal halt: the iteration counter strictly increases each pass and the
router stops at the bound. -/
theorem run_graph_isSome (sLLM cLLM : SwarmState → String) :
    ∀ (fuel : Nat) (s : SwarmState), MAX_ITERATIONS ≤ s.iteration + fuel →
      (run_graph sLLM cLLM (fuel + 1) s).isSome := by
  intro fuel
  induction fuel with
  | zero =>
      intro s h
      rw [run_graph_succ]
      by_cases hcond :
          should_continue (critic_agent cLLM (solver_agent sLLM s)) = "solver"
      · exfalso
        have := (continue_lt hcond).2
        rw [critic_solver_iteration] at this
        omega
      · rw [if_neg hcond]
        simp
  | succ k ih =>
      intro s h
      rw [run_graph_succ]
      by_cases hcond :
          should_continue (critic_agent cLLM (solver_agent sLLM s)) = "solver"
      · rw [if_pos hcond]
        apply ih
        rw [critic_solver_iteration]
        omega
      · rw [if_neg hcond]
        simp

/-- Function `invoke` always returns a final state, for every oracle behavior. -/
theorem invoke_isSome (sLLM cLLM : SwarmState → String) (p : String) :
    (invoke sLLM cLLM p).isSome := by
  unfold invoke
  exact run_graph_isSome sLLM cLLM MAX_ITERATIONS _ (by omega)

end LangGraphSwarm

/-! ## Shared concrete fixtures for the claim theorems and witnesses.

Batteries marks the `Rat` arithmetic operations `@[irreducible]`; inside this
section they are restored to `semireducible` so that concrete runs of the
loop evaluate by `rfl`/`decide`. -/

open SwarmAgent LangGraphSwarm

section

attribute [local semireducible] Rat.add Rat.mul Rat.sub Rat.inv Rat.ofScientific

/-- An oracle whose replies are all empty and whose boosts are all zero. -/
def oTriv : Oracles :=
  { search := fun _ => Except.ok []
    researcher_llm := fun _ _ =>
      Except.ok { findings := [], new_threads := [], confidence_boost := 0 }
    analyst_llm := fun _ =>
      Except.ok { patterns := [], gaps := [], confidence_boost := 0 }
    critic_llm := fun _ =>
      Except.ok { challenges := [], needs_verification := [],
                  confidence_adjustment := 0 } }

theorem oTriv_researcher_nonneg : ResearcherNonneg oTriv := by
  intro ctx s reply h
  simp only [oTriv, Except.ok.injEq] at h
  rw [← h]

theorem oTriv_analyst_nonneg : AnalystNonneg oTriv := by
  intro ctx reply h
  simp only [oTriv, Except.ok.injEq] at h
  rw [← h]

/-- A context at the iteration bound. -/
def cw1 : SharedContext :=
  { task := "t", findings := [], open_threads := [], investigated := [],
    iteration := 10, max_iterations := 10, confidence := 0 }

/-- A context below the bound with confidence at the threshold. -/
def cw2 : SharedContext := { cw1 with iteration := 0, confidence := mkRat 9 10 }

/-- A context below the bound and threshold with no open threads and more
than three findings. -/
def cw3 : SharedContext :=
  { cw1 with iteration := 0, findings := ["a", "b", "c", "d"] }

/-- A context satisfying none of the three stop conditions. -/
def cw4 : SharedContext := { cw1 with iteration := 0, open_threads := ["x"] }

/-- Claim C1: `should_terminate` evaluates its conditions as a fixed
priority list, first true wins: the iteration bound (reason
`"Max iterations reached"`, the code's rendering of "max rounds reached")
always wins, then the 0.85 confidence threshold (reason
`"Confidence threshold reached (…)"`), then no-open-threads with more than
3 findings (reason `"All threads investigated"`, the code's rendering of
"all open items investigated"), otherwise continue. -/
theorem claim_C1_termination_priority (ctx : SharedContext) :
    (ctx.max_iterations ≤ ctx.iteration →
      should_terminate ctx = (true, "Max iterations reached")) ∧
    (ctx.iteration < ctx.max_iterations → (0.85 : Rat) ≤ ctx.confidence →
      should_terminate ctx =
        (true, "Confidence threshold reached (" ++ fmt2 ctx.confidence ++ ")")) ∧
    (ctx.iteration < ctx.max_iterations → ctx.confidence < (0.85 : Rat) →
      ctx.open_threads = [] → 3 < ctx.findings.length →
      should_terminate ctx = (true, "All threads investigated")) ∧
    (ctx.iteration < ctx.max_iterations → ctx.confidence < (0.85 : Rat) →
      ¬(ctx.open_threads = [] ∧ 3 < ctx.findings.length) →
      should_terminate ctx = (false, "")) := by
  refine ⟨?_, ?_, ?_, ?_⟩
  · intro h1
    unfold should_terminate
    rw [if_pos h1]
  · intro h1 h2
    unfold should_terminate
    rw [if_neg (Nat.not_le.mpr h1), if_pos h2]
  · intro h1 h2 h3 h4
    unfold should_terminate
    rw [if_neg (Nat.not_le.mpr h1), if_neg (not_le.mpr h2), if_pos ⟨h3, h4⟩]
  · intro h1 h2 h3
    unfold should_terminate
    rw [if_neg (Nat.not_le.mpr h1), if_neg (not_le.mpr h2), if_neg h3]

/-- Witness for C1: each of the four branches observed at a concrete
context. -/
theorem claim_C1_witness :
    should_terminate cw1 = (true, "Max iterations reached") ∧
    should_terminate cw2 =
      (true, "Confidence threshold reached (" ++ fmt2 cw2.confidence ++ ")") ∧
    should_terminate cw3 = (true, "All threads investigated") ∧
    should_terminate cw4 = (false, "") :=
  ⟨(claim_C1_termination_priority cw1).1 (by decide),
   (claim_C1_termination_priority cw2).2.1 (by decide) (by decide),
   (claim_C1_termination_priority cw3).2.2.1 (by decide) (by decide) (by decide)
     (by decide),
   (claim_C1_termination_priority cw4).2.2.2 (by decide) (by decide) (by decide)⟩

/-- Claim C2: for every oracle behavior and every starting context with
`iteration = 0` and a positive `max_iterations`, the loop reaches an outcome
(it never hangs: the fuel-exhausted value is not produced), and any normal
return reports at most `max_iterations` iterations.  A raising participant
ends the loop with that exception, which still is a (non-hanging) outcome. -/
theorem claim_C2_bounded_rounds (o : Oracles) (ctx : SharedContext)
    (h0 : ctx.iteration = 0) (hpos : 0 < ctx.max_iterations) :
    (swarm_loop o (ctx.max_iterations + 1) ctx).isSome ∧
    ∀ c reason,
      swarm_loop o (ctx.max_iterations + 1) ctx = some (Except.ok (c, reason)) →
      c.iteration ≤ ctx.max_iterations := by
  constructor
  · exact swarm_loop_isSome o ctx.max_iterations ctx (by omega)
  · intro c reason h
    exact swarm_loop_iter_le o _ ctx c reason (by omega) h

/-- Witness for C2 at the trivial oracle and a freshly created context. -/
theorem claim_C2_witness :
    (swarm_loop oTriv ((create_shared_context "t").max_iterations + 1)
      (create_shared_context "t")).isSome :=
  (claim_C2_bounded_rounds oTriv (create_shared_context "t") rfl (by decide)).1

/-- A context already satisfying the confidence stop condition
(`confidence = 0.9 ≥ 0.85`) before any round has run. -/
def ctxPre : SharedContext :=
  { task := "t", findings := [], open_threads := ["t"], investigated := [],
    iteration := 0, max_iterations := 10, confidence := mkRat 9 10 }

/-- A context already past the iteration bound. -/
def ctxPre2 : SharedContext :=
  { task := "t", findings := ["f"], open_threads := ["x"], investigated := [],
    iteration := 5, max_iterations := 3, confidence := 0 }

/-- Counterexample to C3: on a context already satisfying the stop condition
the loop halts with `iteration = 1`, not `0` — `run_swarm` increments the
round counter BEFORE evaluating the termination predicate, so the reported
round count of a pre-converged context is 1.  (No participant runs and the
findings stay empty, as the unchanged fields of the final context show.) -/
theorem claim_C3_counterexample :
    swarm_loop oTriv 11 ctxPre =
      some (Except.ok ({ ctxPre with iteration := 1 },
        "Confidence threshold reached (0.90)")) ∧
    ({ ctxPre with iteration := 1 } : SharedContext).iteration ≠ 0 := by
  constructor
  · rfl
  · decide

/-- Claim C3 as amended: each round the termination predicate is evaluated
before any participant runs, but `iteration` is incremented BEFORE the
predicate is evaluated; a context whose incremented state satisfies the stop
condition halts immediately with `iteration` bumped by one and every other
field (findings included) unchanged, consulting no participant. -/
theorem claim_C3_amended (o : Oracles) (fuel : Nat) (ctx : SharedContext)
    (r : String)
    (h : should_terminate { ctx with iteration := ctx.iteration + 1 } = (true, r)) :
    swarm_loop o (fuel + 1) ctx =
      some (Except.ok ({ ctx with iteration := ctx.iteration + 1 }, r)) := by
  unfold swarm_loop
  simp [h]

/-- Witness for the amended C3 at a context already past the iteration
bound. -/
theorem claim_C3_witness :
    swarm_loop oTriv 1 ctxPre2 =
      some (Except.ok ({ ctxPre2 with iteration := 6 }, "Max iterations reached")) :=
  claim_C3_amended oTriv 0 ctxPre2 "Max iterations reached" (by decide)

/-- Oracle realizing scenario A: a single always-contributing participant —
the researcher always contributes `confidenceDelta = 0.3` (no findings, one
fresh thread so the open list never empties); analyst and critic never meet
their preconditions (fewer than 2 findings), so they never contribute. -/
def oC4 : Oracles :=
  { oTriv with
    researcher_llm := fun ctx _ => Except.ok
      { findings := [], new_threads := ["t" ++ toString ctx.iteration],
        confidence_boost := mkRat 3 10 } }

/-- Scenario A context: `maxRounds = 3`, starting confidence 0. -/
def ctxC4a : SharedContext :=
  { task := "q", findings := [], open_threads := ["q"], investigated := [],
    iteration := 0, max_iterations := 3, confidence := 0 }

/-- Scenario A context with `maxRounds = 5` instead. -/
def ctxC4c : SharedContext := { ctxC4a with max_iterations := 5 }

/-- Counterexample to C4: with `maxRounds = 3` and a participant always
adding `0.3` confidence, the run stops with reason `"Max iterations
reached"`, NOT the claimed "confidence threshold reached": the round counter
is incremented before the check, so the check at iteration 3 fires the
max-rounds condition after only two participant rounds, with confidence
`0.6 < 0.85`. -/
theorem claim_C4_counterexample :
    swarm_loop oC4 4 ctxC4a =
      some (Except.ok
        ({ ctxC4a with
            iteration := 3
            open_threads := ["t2"]
            investigated := ["q", "t1"]
            confidence := mkRat 3 5 },
          "Max iterations reached")) ∧
    (mkRat 3 5) < (0.85 : Rat) := by
  constructor
  · rfl
  · decide

/-- Claim C4 as amended: with `maxRounds = 3` the run reports 3 iterations
but reason `"Max iterations reached"` at confidence `0.6` (only rounds 1
and 2 execute participants); the expected confidence-threshold stop with
`0.9 ≥ 0.85` occurs only from `maxRounds = 5` on, reporting 4 iterations. -/
theorem claim_C4_amended :
    swarm_loop oC4 4 ctxC4a =
      some (Except.ok
        ({ ctxC4a with
            iteration := 3
            open_threads := ["t2"]
            investigated := ["q", "t1"]
            confidence := mkRat 3 5 },
          "Max iterations reached")) ∧
    swarm_loop oC4 6 ctxC4c =
      some (Except.ok
        ({ ctxC4c with
            iteration := 4
            open_threads := ["t3"]
            investigated := ["q", "t1", "t2"]
            confidence := mkRat 9 10 },
          "Confidence threshold reached (0.90)")) := by
  constructor
  · rfl
  · rfl

/-- Oracle realizing scenario D's trigger: the researcher's chat-completion
call raises exactly on round 1. -/
def oC5 : Oracles :=
  { oTriv with
    researcher_llm := fun ctx _ =>
      if ctx.iteration = 1 then Except.error "API error"
      else Except.ok { findings := [], new_threads := [], confidence_boost := 0 } }

/-- The trivial researcher reply. -/
def replyTriv : ResearcherReply :=
  { findings := [], new_threads := [], confidence_boost := 0 }

/-- An oracle whose search call always raises. -/
def oSearchFail : Oracles :=
  { oTriv with search := fun _ => Except.error "down" }

/-- A fresh context as seen inside round 1 (iteration already bumped). -/
def ctxIter1 : SharedContext := { create_shared_context "q" with iteration := 1 }

/-- Counterexample to C5: a participant whose LLM call raises on round 1
crashes the whole loop — the exception escapes `run_swarm` instead of the
round being treated as a zero-contribution round, contradicting both
"the failure is caught" and "the loop continues into round 2". -/
theorem claim_C5_counterexample :
    swarm_loop oC5 11 (create_shared_context "q") =
      some (Except.error "API error") := by
  rfl

/-- Claim C5 as amended: only the researcher's SEARCH call is guarded — a
search failure is converted to the text `"Search failed: …"`, fed to the
LLM, and the researcher still contributes that round; an exception from the
chat-completion call itself is not caught and propagates out of the agent
(and hence, per the counterexample, out of the loop). -/
theorem claim_C5_amended :
    (∀ (o : Oracles) (ctx : SharedContext) (t : String) (ts : List String)
        (msg : String) (reply : ResearcherReply),
      ctx.open_threads = t :: ts →
      o.search t = Except.error msg →
      o.researcher_llm ctx ("Search failed: " ++ msg) = Except.ok reply →
      run_researcher_agent o ctx =
        Except.ok (researcher_apply ctx t reply, true)) ∧
    (∀ (o : Oracles) (ctx : SharedContext) (t : String) (ts : List String)
        (e : String),
      ctx.open_threads = t :: ts →
      o.researcher_llm ctx (search_result_text (o.search t)) = Except.error e →
      run_researcher_agent o ctx = Except.error e) := by
  constructor
  · intro o ctx t ts msg reply hop hsearch hllm
    have htext : search_result_text (o.search t) = "Search failed: " ++ msg := by
      unfold search_result_text
      rw [hsearch]
    unfold run_researcher_agent
    rw [hop]
    simp only [htext, hllm]
  · intro o ctx t ts e hop hllm
    unfold run_researcher_agent
    rw [hop]
    simp only [hllm]

/-- Witness for the amended C5: a failing search still yields a contributing
researcher; a failing chat call yields the propagated error. -/
theorem claim_C5_witness :
    run_researcher_agent oSearchFail (create_shared_context "t") =
      Except.ok (researcher_apply (create_shared_context "t") "t" replyTriv,
        true) ∧
    run_researcher_agent oC5 ctxIter1 = Except.error "API error" :=
  ⟨claim_C5_amended.1 oSearchFail (create_shared_context "t") "t" [] "down"
      replyTriv rfl rfl rfl,
   claim_C5_amended.2 oC5 ctxIter1 "q" [] "API error" rfl rfl⟩

/-- Oracle whose researcher reports a negative confidence boost, as the
(unvalidated) LLM JSON may. -/
def oC6 : Oracles :=
  { oTriv with
    researcher_llm := fun _ _ => Except.ok
      { findings := [], new_threads := [], confidence_boost := mkRat (-1) 2 } }

/-- The context after the researcher merges a `-0.5` boost into a fresh
context. -/
def c6neg : SharedContext :=
  { create_shared_context "t" with
      open_threads := []
      investigated := ["t"]
      confidence := mkRat (-1) 2 }

/-- Counterexample to C6: the researcher's confidence update is NOT clamped —
a negative reported boost drives `confidence` below zero at an observation
point (right after the researcher's merge step). -/
theorem claim_C6_counterexample :
    run_researcher_agent oC6 (create_shared_context "t") =
      Except.ok (c6neg, true) ∧
    c6neg.confidence < 0 := by
  constructor
  · rfl
  · decide

/-- Claim C6 as amended: only the critic's update is followed by the
`max(0, ·)` clamp, so a contributing critic always leaves `confidence ≥ 0`
(first conjunct, no assumption needed); the researcher and analyst add their
reported boosts unclamped, so non-negativity at their observation points
needs the additional assumption that those two oracles report non-negative
boosts.  Under that assumption every observation point of every run is
covered: the context right after the researcher's merge step, right after
the analyst's, right after the critic's (contributing or not), after a whole
round, and at the end of any run of the loop (whose only other confidence
write, the no-contribution `+0.1` nudge, also preserves non-negativity) —
each update maps a non-negative confidence to a non-negative confidence, so
by composition `confidence ≥ 0` holds at every intermediate context of a run
started non-negative. -/
theorem claim_C6_amended :
    (∀ (o : Oracles) (ctx c : SharedContext),
      run_critic_agent o ctx = Except.ok (c, true) → 0 ≤ c.confidence) ∧
    (∀ (o : Oracles) (ctx c : SharedContext) (b : Bool),
      ResearcherNonneg o → 0 ≤ ctx.confidence →
      run_researcher_agent o ctx = Except.ok (c, b) → 0 ≤ c.confidence) ∧
    (∀ (o : Oracles) (ctx c : SharedContext) (b : Bool),
      AnalystNonneg o → 0 ≤ ctx.confidence →
      run_analyst_agent o ctx = Except.ok (c, b) → 0 ≤ c.confidence) ∧
    (∀ (o : Oracles) (ctx c : SharedContext) (b : Bool),
      0 ≤ ctx.confidence →
      run_critic_agent o ctx = Except.ok (c, b) → 0 ≤ c.confidence) ∧
    (∀ (o : Oracles) (ctx c : SharedContext) (n : Nat),
      ResearcherNonneg o → AnalystNonneg o → 0 ≤ ctx.confidence →
      run_round o ctx = Except.ok (c, n) → 0 ≤ c.confidence) ∧
    (∀ (o : Oracles), ResearcherNonneg o → AnalystNonneg o →
      ∀ (fuel : Nat) (ctx c : SharedContext) (reason : String),
        0 ≤ ctx.confidence →
        swarm_loop o fuel ctx = some (Except.ok (c, reason)) →
        0 ≤ c.confidence) := by
  refine ⟨?_, ?_, ?_, ?_, ?_, ?_⟩
  · intro o ctx c h
    unfold run_critic_agent at h
    split at h
    · simp at h
    · cases hr : o.critic_llm ctx with
      | error e => simp [hr] at h
      | ok reply =>
          simp only [hr, Except.ok.injEq, Prod.mk.injEq] at h
          rw [← h.1, critic_apply_confidence]
          exact le_max_left 0 _
  · intro o ctx c b hro h0 h
    exact run_researcher_agent_conf hro h0 h
  · intro o ctx c b hao h0 h
    exact run_analyst_agent_conf hao h0 h
  · intro o ctx c b h0 h
    exact run_critic_agent_conf h0 h
  · intro o ctx c n hro hao h0 h
    exact run_round_conf hro hao h0 h
  · intro o hro hao fuel ctx c reason h0 h
    exact swarm_loop_conf o hro hao fuel ctx c reason h0 h

/-- A context with three findings and a negative confidence, on which the
critic contributes and clamps. -/
def ctxCr : SharedContext :=
  { task := "t", findings := ["a", "b", "c"], open_threads := [],
    investigated := [], iteration := 0, max_iterations := 10,
    confidence := mkRat (-1) 4 }

/-- Context `ctxCr` after the critic's clamped zero-adjustment update. -/
def c6w : SharedContext := { ctxCr with confidence := 0 }

/-- The final context of a full run of the loop from a fresh context under
the trivial oracle (one researcher round, then eight fallback nudges). -/
def cLoopFinal : SharedContext :=
  { task := "t", findings := [], open_threads := [], investigated := ["t"],
    iteration := 10, max_iterations := 10, confidence := mkRat 4 5 }

/-- The context after one round of the trivial oracle on a fresh context:
the task thread was investigated and removed from the open list.  It is also
exactly the researcher's output within that round (the analyst and critic
are no-ops there). -/
def c7round : SharedContext :=
  { task := "t", findings := [], open_threads := [], investigated := ["t"],
    iteration := 0, max_iterations := 10, confidence := 0 }

/-- Witness for the amended C6: every conjunct observed concretely — the
critic's clamp, the researcher / analyst / critic observation points and
the whole-round point under the trivial (zero-boost) oracle, and the final
context of a full run. -/
theorem claim_C6_witness :
    (0 : Rat) ≤ c6w.confidence ∧
    (0 : Rat) ≤ c7round.confidence ∧
    (0 : Rat) ≤ c7round.confidence ∧
    (0 : Rat) ≤ c7round.confidence ∧
    (0 : Rat) ≤ c7round.confidence ∧
    (0 : Rat) ≤ cLoopFinal.confidence :=
  ⟨claim_C6_amended.1 oTriv ctxCr c6w (by rfl),
   claim_C6_amended.2.1 oTriv (create_shared_context "t") c7round true
     oTriv_researcher_nonneg (by decide) (by rfl),
   claim_C6_amended.2.2.1 oTriv c7round c7round false
     oTriv_analyst_nonneg (by decide) (by rfl),
   claim_C6_amended.2.2.2.1 oTriv c7round c7round false (by decide) (by rfl),
   claim_C6_amended.2.2.2.2.1 oTriv (create_shared_context "t") c7round 1
     oTriv_researcher_nonneg oTriv_analyst_nonneg (by decide) (by rfl),
   claim_C6_amended.2.2.2.2.2 oTriv oTriv_researcher_nonneg
     oTriv_analyst_nonneg 11 (create_shared_context "t") cLoopFinal
     "Max iterations reached" (by decide) (by rfl)⟩

/-- Claim C7: `investigated` and `open_threads` are disjoint after every
round and in every final context reachable from a fresh context — every
candidate open item is deduplicated against both lists, and the thread the
researcher moves to `investigated` is erased from the (duplicate-free) open
list. -/
theorem claim_C7_disjoint :
    (∀ (o : Oracles) (ctx c : SharedContext) (n : Nat),
      CtxInv ctx → run_round o ctx = Except.ok (c, n) →
      ∀ x ∈ c.investigated, x ∉ c.open_threads) ∧
    (∀ (o : Oracles) (fuel : Nat) (task : String) (c : SharedContext)
        (reason : String),
      swarm_loop o fuel (create_shared_context task) =
        some (Except.ok (c, reason)) →
      ∀ x ∈ c.investigated, x ∉ c.open_threads) := by
  constructor
  · intro o ctx c n hinv h
    exact (run_round_inv hinv h).2
  · intro o fuel task c reason h
    exact (swarm_loop_inv o fuel _ c reason (create_shared_context_inv task) h).2

/-- Witness for C7 at a concrete round and a concrete full run. -/
theorem claim_C7_witness :
    "t" ∉ c7round.open_threads ∧ "t" ∉ cLoopFinal.open_threads :=
  ⟨claim_C7_disjoint.1 oTriv (create_shared_context "t") c7round 1 (by decide)
      (by rfl) "t" (by decide),
   claim_C7_disjoint.2 oTriv 11 "t" cLoopFinal "Max iterations reached"
      (by rfl) "t" (by decide)⟩

/-- A context on which no agent can ever contribute: no open threads (the
researcher's precondition) and no findings (the analyst's and critic's
preconditions). -/
def ctxC8 : SharedContext :=
  { task := "t", findings := [], open_threads := [], investigated := [],
    iteration := 0, max_iterations := 10, confidence := 0 }

/-- Claim C8: when every participant reports no contribution in every round
(its precondition unmet), the `0.1` fallback nudge fires every executed
round — the final confidence `0.9 = 9 × 0.1` counts all nine executed
rounds — and the loop stops exactly at `max_iterations = 10` with reason
`"Max iterations reached"`, for EVERY oracle (none is ever consulted). -/
theorem claim_C8_fallback_nudge (o : Oracles) :
    swarm_loop o 11 ctxC8 =
      some (Except.ok ({ ctxC8 with iteration := 10, confidence := mkRat 9 10 },
        "Max iterations reached")) ∧
    ({ ctxC8 with iteration := 10, confidence := mkRat 9 10 } :
        SharedContext).iteration = ctxC8.max_iterations := by
  constructor
  · rfl
  · rfl

/-- Witness for C8 at the trivial oracle. -/
theorem claim_C8_witness :
    swarm_loop oTriv 11 ctxC8 =
      some (Except.ok ({ ctxC8 with iteration := 10, confidence := mkRat 9 10 },
        "Max iterations reached")) :=
  (claim_C8_fallback_nudge oTriv).1

/-- A context one increment below its iteration bound with converged
confidence. -/
def ctxC9a : SharedContext :=
  { task := "q", findings := [], open_threads := [], investigated := [],
    iteration := 10, max_iterations := 10, confidence := mkRat 9 10 }

/-- The same context with a looser bound, so the confidence condition is the
one that fires. -/
def ctxC9b : SharedContext := { ctxC9a with max_iterations := 12 }

/-- Final context of the run from `ctxC9a`. -/
def c9a : SharedContext := { ctxC9a with iteration := 11 }

/-- Final context of the run from `ctxC9b`. -/
def c9b : SharedContext := { ctxC9b with iteration := 11 }

/-- Counterexample to C9: two runs that terminate for DIFFERENT reasons
("max iterations" versus "confidence threshold") produce IDENTICAL return
dictionaries — `run_swarm`'s result has no `terminationReason` field (the
reason is only printed), so the caller cannot distinguish the cases. -/
theorem claim_C9_counterexample :
    swarm_loop oTriv 1 ctxC9a =
      some (Except.ok (c9a, "Max iterations reached")) ∧
    swarm_loop oTriv 1 ctxC9b =
      some (Except.ok (c9b, "Confidence threshold reached (0.90)")) ∧
    mk_result c9a "ans" = mk_result c9b "ans" ∧
    "Max iterations reached" ≠ "Confidence threshold reached (0.90)" := by
  refine ⟨rfl, rfl, rfl, by decide⟩

/-- Claim C9 as amended: the run's return value is built from the final
context and the synthesizer's answer alone (task, iterations, total
findings, threads investigated, final confidence, findings, answer) — the
termination reason the loop computed is discarded, not included. -/
theorem claim_C9_amended (o : Oracles) (synth : SharedContext → String)
    (task : String) (c : SharedContext) (reason : String)
    (h : swarm_loop o ((create_shared_context task).max_iterations + 1)
        (create_shared_context task) = some (Except.ok (c, reason))) :
    run_swarm o synth task = Except.ok (mk_result c (synth c)) := by
  unfold run_swarm
  rw [h]

/-- Witness for the amended C9 on a concrete full run. -/
theorem claim_C9_witness :
    run_swarm oTriv (fun _ => "ans") "t" =
      Except.ok (mk_result cLoopFinal "ans") :=
  claim_C9_amended oTriv (fun _ => "ans") "t" cLoopFinal
    "Max iterations reached" (by rfl)

/-- Solver oracle for scenario B: always proposes the same candidate. -/
def sB : SwarmState → String := fun _ => "candidate"

/-- Critic oracle for scenario B: approves exactly on round 2. -/
def cB : SwarmState → String := fun s =>
  if s.iteration = 2 then "APPROVED: good" else "NEEDS WORK: more detail"

/-- The initial state `main` passes to `app.invoke`, for problem "p". -/
def initB : SwarmState :=
  { problem := "p", solution := "", feedback := "", iteration := 0,
    is_complete := false, history := [] }

/-- The final state of scenario B: converged at round 2. -/
def stateB : SwarmState :=
  { problem := "p", solution := "candidate", feedback := "APPROVED: good",
    iteration := 2, is_complete := true,
    history := ["ITERATION 1 SOLUTION:\ncandidate",
                "ITERATION 1 FEEDBACK:\nNEEDS WORK: more detail",
                "ITERATION 2 SOLUTION:\ncandidate",
                "ITERATION 2 FEEDBACK:\nAPPROVED: good"] }

/-- Claim C10: the solver/critic loop routes to `"end"` exactly when the
reviewer set `is_complete` or `iteration` reached `MAX_ITERATIONS`; every
halt state satisfies that disjunction; the loop always halts; and in
scenario B (reviewer approves on round 2) the run ends with `iteration = 2`
and `is_complete = true` — the "converged" outcome. -/
theorem claim_C10_solver_critic :
    (∀ s : SwarmState, should_continue s = "end" ↔
      (s.is_complete = true ∨ MAX_ITERATIONS ≤ s.iteration)) ∧
    (∀ (sLLM cLLM : SwarmState → String) (fuel : Nat) (s s' : SwarmState),
      run_graph sLLM cLLM fuel s = some s' →
      s'.is_complete = true ∨ MAX_ITERATIONS ≤ s'.iteration) ∧
    (∀ (sLLM cLLM : SwarmState → String) (p : String),
      (invoke sLLM cLLM p).isSome) ∧
    invoke sB cB "p" = some stateB ∧
    stateB.iteration = 2 ∧ stateB.is_complete = true := by
  refine ⟨should_continue_end_iff, run_graph_stop, invoke_isSome, ?_, rfl, rfl⟩
  rfl

/-- Witness for C10: the router and the halt-state disjunction observed at
the concrete scenario-B run. -/
theorem claim_C10_witness :
    should_continue stateB = "end" ∧
    (stateB.is_complete = true ∨ MAX_ITERATIONS ≤ stateB.iteration) :=
  ⟨(claim_C10_solver_critic.1 stateB).mpr (Or.inl rfl),
   claim_C10_solver_critic.2.1 sB cB 4 initB stateB (by rfl)⟩

end
